import Mathlib

/-!
Verification development for the chat-turn orchestrator in `src/bot.ts`.

The TypeScript class `Bot` is shallowly embedded below.  External
collaborators (the OpenAI client, the history provider, the clock) are
modelled as explicit inputs gathered in a `World` record: each turn is a
pure function of the bot's configuration, the incoming message, the
conversation identity, and that world.  A `TurnTrace` records, besides the
returned value, the observable effects the specification talks about: the
assembled message sequence handed to the completion provider, whether a
history fetch was attempted, how many completion attempts were made, and
the warning lines emitted.
-/

namespace AiPrReviewer

/-- `Ids` from `bot.ts`: `{ messageId?: string, threadId?: string }`. -/
structure Ids where
  messageId : Option String
  threadId : Option String
deriving DecidableEq

/-- JavaScript truthiness of an optional string: `undefined` and `''` are
falsy, every other string is truthy. -/
def jsTruthy : Option String → Bool
  | none => false
  | some s => !(s == "")

/-- A message in the sequence sent to the completion endpoint: a role tag
and a content string. -/
structure ChatMsg where
  role : String
  content : String
deriving DecidableEq

/-- One content part of a thread message returned by the history provider:
either a text part carrying a value, or some non-text part. -/
inductive MsgPart where
  | text (value : String)
  | other
deriving DecidableEq

/-- A message returned by `client.beta.threads.messages.list`. -/
structure ThreadMsg where
  role : String
  content : List MsgPart
deriving DecidableEq

/-- The assistant message returned by one completion call:
`completion.choices[0].message`, whose `content` may be null. -/
structure RespMsg where
  role : String
  content : Option String
deriving DecidableEq

/-- The configuration fields of `Options` that the orchestrator reads. -/
structure Options where
  systemMessage : String
  language : String
  openaiRetries : Nat
deriving DecidableEq

/-- The state a constructed `Bot` instance carries: whether the client was
initialized, the options, and the system message built at construction. -/
structure Bot where
  hasClient : Bool
  options : Options
  systemMessage : String
deriving DecidableEq

/-- The external world one call of `chat` interacts with: the outcome of
the history fetch (were it attempted), the outcome of each completion
attempt by index, and the two `Date.now()` readings used for the new ids. -/
structure World where
  historyFetch : Except String (List ThreadMsg)
  completionAttempt : Nat → Except String RespMsg
  nowMsg : Nat
  nowThread : Nat

/-- The observable outcome of one `chat_` call: the value returned or the
error thrown, the message sequence handed to the completion provider
(`none` when the early return fired), whether a history fetch was
attempted, the number of completion attempts made, and the warnings
emitted. -/
structure TurnTrace where
  result : Except String (String × Ids)
  assembled : Option (List ChatMsg)
  historyFetched : Bool
  completionCalls : Nat
  warnings : List String

/-- The empty identity `{}`. -/
def emptyIds : Ids := Ids.mk none none

/-- The system message template from the `Bot` constructor: base
instruction, knowledge cutoff line, current date line, and the language
directive, joined exactly as in the template literal. -/
def mkSystemMessage (base cutoff currentDate language : String) : String :=
  base ++ " \nKnowledge cutoff: " ++ cutoff ++ "\nCurrent date: " ++ currentDate ++
    "\n\nIMPORTANT: Entire response must be in the language with ISO code: " ++ language ++ "\n"

/-- The error thrown by the constructor when the API key is missing. -/
def initErrorMsg : String :=
  "Unable to initialize the OpenAI API, 'OPENAI_API_KEY' environment variable is not available"

/-- The `Bot` constructor: reads `process.env.OPENAI_API_KEY`; when it is
set (truthy) it builds the system message and the client, otherwise it
throws. -/
def Bot.make (opts : Options) (knowledgeCutOff : String) (apiKey : Option String)
    (currentDate : String) : Except String Bot :=
  if jsTruthy apiKey then
    Except.ok (Bot.mk true opts
      (mkSystemMessage opts.systemMessage knowledgeCutOff currentDate opts.language))
  else
    Except.error initErrorMsg

/-- `msg.content[0].type === 'text' ? msg.content[0].text.value : ''`. -/
def partText : MsgPart → String
  | MsgPart.text v => v
  | MsgPart.other => ""

/-- The history loop: each thread message with a nonempty content list is
pushed; a message with an empty content list makes `content[0].type`
throw, which aborts the loop (messages pushed so far remain pushed, the
error is caught by the surrounding catch). -/
def pushHistory : List ThreadMsg → List ChatMsg
  | [] => []
  | m :: rest =>
    match m.content with
    | [] => []
    | p :: _ => ChatMsg.mk m.role (partText p) :: pushHistory rest

/-- Whether the history loop throws partway (some message has an empty
content list). -/
def historyLoopThrows : List ThreadMsg → Bool
  | [] => false
  | m :: rest =>
    match m.content with
    | [] => true
    | _ :: _ => historyLoopThrows rest

/-- The warning emitted when the history fetch or loop fails. -/
def histWarningMsg : String := "Failed to retrieve message history, continuing with new message"

/-- The history block of `chat_`: when the identity carries both ids, the
fetch is attempted; on success the loop pushes messages (possibly aborted
partway), on failure nothing is added; either failure emits the warning.
Returns the extra messages and the warnings. -/
def assembleHistory (tryIt : Bool) (fetch : Except String (List ThreadMsg)) :
    List ChatMsg × List String :=
  if tryIt then
    match fetch with
    | Except.ok prev => (pushHistory prev, if historyLoopThrows prev then [histWarningMsg] else [])
    | Except.error _ => ([], [histWarningMsg])
  else ([], [])

/-- JavaScript `String.prototype.startsWith`, modelled on the character
data of the strings. -/
def jsStartsWith (s p : String) : Bool := p.data.isPrefixOf s.data

/-- The response-text cleaning in `chat_`: strip the literal `"with "`
once when the content starts with it (`substring(5)`), else pass the
content through unchanged. -/
def normalizeResponse (s : String) : String :=
  if jsStartsWith s "with " then s.drop 5 else s

/-- `ids.threadId || `thread_${Date.now()}``: carry the incoming thread id
over when truthy, otherwise mint a fresh timestamp-based one. -/
def deriveThreadId (old : Option String) (now : Nat) : String :=
  match old with
  | some t => if t == "" then "thread_" ++ toString now else t
  | none => "thread_" ++ toString now

/-- The `pRetry` loop: `fuel` attempts remain, `made` were made.  Each
failed attempt consumes fuel; the last failure is returned once fuel runs
out.  Returns the final outcome and the total number of attempts made. -/
def pRetryGo {α : Type} (attempt : Nat → Except String α) :
    Nat → Nat → Except String α × Nat
  | 0, made => (Except.error "retries exhausted", made)
  | fuel + 1, made =>
    match attempt made with
    | Except.ok a => (Except.ok a, made + 1)
    | Except.error e =>
      match fuel with
      | 0 => (Except.error e, made + 1)
      | _ + 1 => pRetryGo attempt fuel (made + 1)

/-- `pRetry(fn, { retries })`: up to `retries + 1` total attempts. -/
def pRetryRun {α : Type} (attempt : Nat → Except String α) (retries : Nat) :
    Except String α × Nat :=
  pRetryGo attempt (retries + 1) 0

/-- The body of `chat_` past the early-return check: assemble the message
sequence, run the retried completion call, normalize the response and
derive the new ids; a final failure of the retry loop is rethrown. -/
def Bot.chatBody (bot : Bot) (message : String) (ids : Ids) (w : World) : TurnTrace :=
  let tryHistory := jsTruthy ids.messageId && jsTruthy ids.threadId
  let hist := assembleHistory tryHistory w.historyFetch
  let messages := ChatMsg.mk "system" bot.systemMessage :: ChatMsg.mk "user" message :: hist.1
  match pRetryRun w.completionAttempt bot.options.openaiRetries with
  | (Except.error e, calls) =>
    TurnTrace.mk (Except.error e) (some messages) tryHistory calls hist.2
  | (Except.ok response, calls) =>
    let responseText := normalizeResponse (response.content.getD "")
    let newIds := Ids.mk (some (response.role ++ "_" ++ toString w.nowMsg))
      (some (deriveThreadId ids.threadId w.nowThread))
    TurnTrace.mk (Except.ok (responseText, newIds)) (some messages) tryHistory calls hist.2

/-- `chat_`: the early return on an empty message or a missing client,
then the body. -/
def Bot.chatInner (bot : Bot) (message : String) (ids : Ids) (w : World) : TurnTrace :=
  if message = "" ∨ bot.hasClient = false then
    TurnTrace.mk (Except.ok ("", emptyIds)) none false 0 []
  else
    bot.chatBody message ids w

/-- The public `chat`: returns the value of `chat_` when it succeeds; a
thrown error is caught, a warning is appended, and the initial soft value
`('', {})` is returned.  The second component collects the warnings. -/
def Bot.chatRun (bot : Bot) (message : String) (ids : Ids) (w : World) :
    (String × Ids) × List String :=
  let t := bot.chatInner message ids w
  match t.result with
  | Except.ok r => (r, t.warnings)
  | Except.error e => (("", emptyIds), t.warnings ++ ["Failed to chat: " ++ e])

/-- The value `chat` returns to its caller. -/
def Bot.chat (bot : Bot) (message : String) (ids : Ids) (w : World) : String × Ids :=
  (bot.chatRun message ids w).1

/-! Concrete instances used by witnesses and counterexamples. -/

/-- A concrete configuration. -/
def exOptions : Options := Options.mk "Reply helpfully." "en-US" 2

/-- The bot `Bot.make exOptions "2024-06" (some "sk-test") "2025-01-01"` builds. -/
def exBot : Bot :=
  Bot.mk true exOptions (mkSystemMessage "Reply helpfully." "2024-06" "2025-01-01" "en-US")

/-- A concrete successful completion message. -/
def exResp : RespMsg := RespMsg.mk "assistant" (some "hello there")

/-- A world whose history fetch returns one assistant message and whose
completion always succeeds. -/
def exWorldHist : World :=
  World.mk (Except.ok [ThreadMsg.mk "assistant" [MsgPart.text "earlier reply"]])
    (fun _ => Except.ok exResp) 111 222

/-- A world with empty history and a succeeding completion. -/
def exWorldOk : World :=
  World.mk (Except.ok []) (fun _ => Except.ok exResp) 111 222

/-- A world whose completion call fails on every attempt. -/
def exWorldFailComp : World :=
  World.mk (Except.ok []) (fun _ => Except.error "boom") 111 222

/-- A world whose history fetch fails and whose completion succeeds. -/
def exWorldFailHist : World :=
  World.mk (Except.error "net down") (fun _ => Except.ok exResp) 111 222

/-- An identity carrying both a message id and a thread id. -/
def exIdsFull : Ids := Ids.mk (some "m1") (some "t1")

/-- A completion message with null content. -/
def exRespNull : RespMsg := RespMsg.mk "assistant" none

/-- A world whose completion succeeds with null content. -/
def exWorldNull : World :=
  World.mk (Except.ok []) (fun _ => Except.ok exRespNull) 111 222

/-! Helper lemmas shared by the claim theorems. -/

theorem isPrefixOf_append_self (p l : List Char) : p.isPrefixOf (p ++ l) = true := by
  induction p with
  | nil => simp
  | cons a as ih => simp [List.isPrefixOf, ih]

theorem jsStartsWith_of_append (s : String) : jsStartsWith ("with " ++ s) "with " = true := by
  unfold jsStartsWith
  rw [String.data_append]
  exact isPrefixOf_append_self _ _

theorem drop_five_of_append (s : String) : ("with " ++ s).drop 5 = s := by
  apply String.ext
  rw [String.data_drop, String.data_append]
  exact List.drop_left' (by rfl)

theorem normalizeResponse_of_append (s : String) : normalizeResponse ("with " ++ s) = s := by
  unfold normalizeResponse
  rw [jsStartsWith_of_append]
  simp [drop_five_of_append]

theorem normalizeResponse_no_strip (s : String) (h : jsStartsWith s "with " = false) :
    normalizeResponse s = s := by
  unfold normalizeResponse
  rw [h]
  simp

theorem string_append_ne_empty (m t : String) (hm : m.data ≠ []) : (m ++ t) ≠ "" := by
  intro h
  have hd : (m ++ t).data = [] := by rw [h]
  rw [String.data_append] at hd
  exact hm (List.append_eq_nil.mp hd).1

theorem string_append_mid_ne_empty (r m t : String) (hm : m.data ≠ []) :
    (r ++ m ++ t) ≠ "" := by
  intro h
  have hd : (r ++ m ++ t).data = [] := by rw [h]
  rw [String.data_append, String.data_append] at hd
  exact hm (List.append_eq_nil.mp (List.append_eq_nil.mp hd).1).2

theorem deriveThreadId_ne_empty (old : Option String) (now : Nat) :
    deriveThreadId old now ≠ "" := by
  unfold deriveThreadId
  match old with
  | none => exact string_append_ne_empty _ _ (by decide)
  | some t =>
    show (if t == "" then "thread_" ++ toString now else t) ≠ ""
    by_cases h : (t == "") = true
    · rw [if_pos h]
      exact string_append_ne_empty _ _ (by decide)
    · rw [if_neg h]
      intro hfalse
      exact h (by rw [hfalse]; decide)

theorem jsTruthy_some_iff (s : String) : jsTruthy (some s) = true ↔ s ≠ "" := by
  simp [jsTruthy]

theorem deriveThreadId_carried (t : String) (now : Nat) (ht : t ≠ "") :
    deriveThreadId (some t) now = t := by
  simp [deriveThreadId, ht]

theorem deriveThreadId_minted (old : Option String) (now : Nat)
    (h : jsTruthy old = false) : deriveThreadId old now = "thread_" ++ toString now := by
  match old with
  | none => rfl
  | some t =>
    have : t = "" := by simpa [jsTruthy] using h
    simp [deriveThreadId, this]

theorem pRetryRun_first_ok {α : Type} (attempt : Nat → Except String α) (retries : Nat) (a : α)
    (h : attempt 0 = Except.ok a) : pRetryRun attempt retries = (Except.ok a, 1) := by
  simp [pRetryRun, pRetryGo, h]

theorem pRetryGo_step {α : Type} (attempt : Nat → Except String α) (f made : Nat) (e : String)
    (he : attempt made = Except.error e) :
    pRetryGo attempt (f + 1 + 1) made = pRetryGo attempt (f + 1) (made + 1) := by
  simp [pRetryGo, he]

theorem pRetryGo_all_fail {α : Type} (attempt : Nat → Except String α)
    (hfail : ∀ k, ∃ e, attempt k = Except.error e) :
    ∀ fuel made, 0 < fuel →
      ∃ e, pRetryGo attempt fuel made = (Except.error e, made + fuel) := by
  intro fuel
  induction fuel with
  | zero => intro made h; exact absurd h (by omega)
  | succ f ih =>
    intro made _
    obtain ⟨e, he⟩ := hfail made
    match f, ih with
    | 0, _ => exact ⟨e, by simp [pRetryGo, he]⟩
    | f2 + 1, ih =>
      obtain ⟨e2, he2⟩ := ih (made + 1) (by omega)
      refine ⟨e2, ?_⟩
      rw [pRetryGo_step attempt f2 made e he, he2]
      have harith : made + 1 + (f2 + 1) = made + (f2 + 1 + 1) := by omega
      rw [harith]

theorem pRetryRun_all_fail {α : Type} (attempt : Nat → Except String α) (retries : Nat)
    (hfail : ∀ k, ∃ e, attempt k = Except.error e) :
    ∃ e, pRetryRun attempt retries = (Except.error e, retries + 1) := by
  have h := pRetryGo_all_fail attempt hfail (retries + 1) 0 (by omega)
  simpa [pRetryRun] using h

theorem chatInner_not_early (bot : Bot) (m : String) (ids : Ids) (w : World)
    (hm : m ≠ "") (hc : bot.hasClient = true) :
    bot.chatInner m ids w = bot.chatBody m ids w := by
  have hcond : ¬(m = "" ∨ bot.hasClient = false) := by
    rintro (h | h)
    · exact hm h
    · rw [hc] at h; cases h
  simp [Bot.chatInner, hcond]

theorem chatBody_of_ok (bot : Bot) (m : String) (ids : Ids) (w : World)
    (resp : RespMsg) (calls : Nat)
    (hcomp : pRetryRun w.completionAttempt bot.options.openaiRetries = (Except.ok resp, calls)) :
    bot.chatBody m ids w = TurnTrace.mk
      (Except.ok (normalizeResponse (resp.content.getD ""),
        Ids.mk (some (resp.role ++ "_" ++ toString w.nowMsg))
          (some (deriveThreadId ids.threadId w.nowThread))))
      (some (ChatMsg.mk "system" bot.systemMessage :: ChatMsg.mk "user" m ::
        (assembleHistory (jsTruthy ids.messageId && jsTruthy ids.threadId) w.historyFetch).1))
      (jsTruthy ids.messageId && jsTruthy ids.threadId) calls
      (assembleHistory (jsTruthy ids.messageId && jsTruthy ids.threadId) w.historyFetch).2 := by
  simp [Bot.chatBody, hcomp]

theorem chatBody_of_error (bot : Bot) (m : String) (ids : Ids) (w : World)
    (e : String) (calls : Nat)
    (hcomp : pRetryRun w.completionAttempt bot.options.openaiRetries = (Except.error e, calls)) :
    bot.chatBody m ids w = TurnTrace.mk (Except.error e)
      (some (ChatMsg.mk "system" bot.systemMessage :: ChatMsg.mk "user" m ::
        (assembleHistory (jsTruthy ids.messageId && jsTruthy ids.threadId) w.historyFetch).1))
      (jsTruthy ids.messageId && jsTruthy ids.threadId) calls
      (assembleHistory (jsTruthy ids.messageId && jsTruthy ids.threadId) w.historyFetch).2 := by
  simp [Bot.chatBody, hcomp]

theorem chat_of_inner_ok (bot : Bot) (m : String) (ids : Ids) (w : World) (r : String × Ids)
    (h : (bot.chatInner m ids w).result = Except.ok r) : bot.chat m ids w = r := by
  simp [Bot.chat, Bot.chatRun, h]

theorem chat_of_inner_error (bot : Bot) (m : String) (ids : Ids) (w : World) (e : String)
    (h : (bot.chatInner m ids w).result = Except.error e) :
    bot.chat m ids w = ("", emptyIds) ∧
      (bot.chatRun m ids w).2 =
        (bot.chatInner m ids w).warnings ++ ["Failed to chat: " ++ e] := by
  constructor
  · simp [Bot.chat, Bot.chatRun, h]
  · simp [Bot.chatRun, h]

theorem assembleHistory_fail (fetch : Except String (List ThreadMsg)) (e : String)
    (h : fetch = Except.error e) :
    assembleHistory true fetch = ([], [histWarningMsg]) := by
  simp [assembleHistory, h]

theorem chatBody_assembled (bot : Bot) (m : String) (ids : Ids) (w : World) :
    (bot.chatBody m ids w).assembled =
      some (ChatMsg.mk "system" bot.systemMessage :: ChatMsg.mk "user" m ::
        (assembleHistory (jsTruthy ids.messageId && jsTruthy ids.threadId) w.historyFetch).1) := by
  cases hres : pRetryRun w.completionAttempt bot.options.openaiRetries with
  | mk r calls =>
    cases r with
    | ok resp => rw [chatBody_of_ok bot m ids w resp calls hres]
    | error e => rw [chatBody_of_error bot m ids w e calls hres]

theorem make_ok_inversion (opts : Options) (cutoff date : String) (apiKey : Option String)
    (bot : Bot) (hmk : Bot.make opts cutoff apiKey date = Except.ok bot) :
    bot = Bot.mk true opts (mkSystemMessage opts.systemMessage cutoff date opts.language) := by
  unfold Bot.make at hmk
  by_cases h : jsTruthy apiKey = true
  · rw [if_pos h] at hmk
    exact (Except.ok.inj hmk).symm
  · rw [if_neg h] at hmk
    cases hmk

/-! The claim theorems. -/

/-- C1: for every message and identity, the public chat operation never
propagates an error: the embedding of `chat` is a total function, and
whenever the internal pipeline `chat_` ends in an error, `chat` returns
the soft result `('', {})` and a "Failed to chat" warning carrying the
error message is appended to the emitted warnings. -/
theorem chat_never_throws (bot : Bot) (m : String) (ids : Ids) (w : World) (e : String)
    (herr : (bot.chatInner m ids w).result = Except.error e) :
    bot.chat m ids w = ("", emptyIds) ∧
      (bot.chatRun m ids w).2 =
        (bot.chatInner m ids w).warnings ++ ["Failed to chat: " ++ e] :=
  chat_of_inner_error bot m ids w e herr

/-- Witness for C1 at a concrete failing world. -/
theorem chat_never_throws_witness :
    (exBot.chatInner "hi" emptyIds exWorldFailComp).result = Except.error "boom" ∧
    exBot.chat "hi" emptyIds exWorldFailComp = ("", emptyIds) :=
  ⟨rfl, (chat_never_throws exBot "hi" emptyIds exWorldFailComp "boom" rfl).1⟩

/-- C2 is false of the code: history messages are pushed after the new
user message, so with one fetched assistant message the assembled
sequence is [system, user, assistant]; it ends with the history message,
which does not sit between the system and user messages. -/
theorem assembled_order_counterexample :
    (exBot.chatInner "hi" exIdsFull exWorldHist).assembled =
      some [ChatMsg.mk "system" exBot.systemMessage, ChatMsg.mk "user" "hi",
        ChatMsg.mk "assistant" "earlier reply"] ∧
    (((exBot.chatInner "hi" exIdsFull exWorldHist).assembled.getD []).getLast?).map ChatMsg.role
      = some "assistant" :=
  ⟨rfl, rfl⟩

/-- C2 (amended): for every turn that reaches assembly, the sequence
begins with exactly one system-role message immediately followed by the
new user message; history messages, when any are fetched, are appended
after the user message rather than between the two, and when no history
is attempted or the fetch fails the sequence is exactly those two
messages. -/
theorem assembled_sequence_structure (bot : Bot) (m : String) (ids : Ids) (w : World)
    (hm : m ≠ "") (hc : bot.hasClient = true) :
    ∃ tail, (bot.chatInner m ids w).assembled =
        some (ChatMsg.mk "system" bot.systemMessage :: ChatMsg.mk "user" m :: tail) ∧
      ((jsTruthy ids.messageId && jsTruthy ids.threadId) = false → tail = []) ∧
      (∀ e, w.historyFetch = Except.error e → tail = []) := by
  rw [chatInner_not_early bot m ids w hm hc]
  refine ⟨_, chatBody_assembled bot m ids w, ?_, ?_⟩
  · intro h
    simp [assembleHistory, h]
  · intro e he
    cases htry : (jsTruthy ids.messageId && jsTruthy ids.threadId) <;>
      simp [assembleHistory, he, htry]

/-- Witness for C2 (amended) at a concrete world with no history. -/
theorem assembled_sequence_structure_witness :
    ∃ tail, (exBot.chatInner "hi" emptyIds exWorldOk).assembled =
        some (ChatMsg.mk "system" exBot.systemMessage :: ChatMsg.mk "user" "hi" :: tail) ∧
      ((jsTruthy emptyIds.messageId && jsTruthy emptyIds.threadId) = false → tail = []) ∧
      (∀ e, exWorldOk.historyFetch = Except.error e → tail = []) :=
  assembled_sequence_structure exBot "hi" emptyIds exWorldOk (by decide) rfl

/-- C3: with retry budget N and a completion provider that fails on every
attempt, the provider is invoked exactly N+1 times and the turn resolves
to `('', {})`. -/
theorem failing_provider_attempt_count (bot : Bot) (m : String) (ids : Ids) (w : World)
    (hm : m ≠ "") (hc : bot.hasClient = true)
    (hfail : ∀ k, ∃ e, w.completionAttempt k = Except.error e) :
    (bot.chatInner m ids w).completionCalls = bot.options.openaiRetries + 1 ∧
    bot.chat m ids w = ("", emptyIds) := by
  obtain ⟨e, he⟩ := pRetryRun_all_fail w.completionAttempt bot.options.openaiRetries hfail
  have hinner := chatInner_not_early bot m ids w hm hc
  have hbody := chatBody_of_error bot m ids w e (bot.options.openaiRetries + 1) he
  constructor
  · rw [hinner, hbody]
  · have herr : (bot.chatInner m ids w).result = Except.error e := by rw [hinner, hbody]
    exact (chat_of_inner_error bot m ids w e herr).1

/-- Witness for C3: retry budget 2, failing provider, 3 attempts. -/
theorem failing_provider_attempt_count_witness :
    (exBot.chatInner "hi" emptyIds exWorldFailComp).completionCalls = 2 + 1 ∧
    exBot.chat "hi" emptyIds exWorldFailComp = ("", emptyIds) :=
  failing_provider_attempt_count exBot "hi" emptyIds exWorldFailComp (by decide) rfl
    (fun _ => ⟨"boom", rfl⟩)

/-- C4: an empty message makes chat return `('', {})` immediately: no
history fetch is attempted, no completion attempt is made, and no message
sequence is assembled. -/
theorem empty_message_immediate (bot : Bot) (ids : Ids) (w : World) :
    bot.chat "" ids w = ("", emptyIds) ∧
    (bot.chatInner "" ids w).historyFetched = false ∧
    (bot.chatInner "" ids w).completionCalls = 0 ∧
    (bot.chatInner "" ids w).assembled = none := by
  have h : bot.chatInner "" ids w = TurnTrace.mk (Except.ok ("", emptyIds)) none false 0 [] := by
    simp [Bot.chatInner]
  refine ⟨chat_of_inner_ok bot "" ids w ("", emptyIds) (by rw [h]), ?_, ?_, ?_⟩ <;> rw [h]

/-- C5: when the history fetch fails, the failure is swallowed locally:
the history warning is recorded, the assembled sequence is exactly the
system and user messages, and a then-successful completion still returns
nonempty text and an identity with both fields populated. -/
theorem history_failure_degrades (bot : Bot) (m : String) (ids : Ids) (w : World)
    (resp : RespMsg) (e : String) (calls : Nat)
    (hm : m ≠ "") (hc : bot.hasClient = true)
    (hmid : jsTruthy ids.messageId = true) (htid : jsTruthy ids.threadId = true)
    (hhist : w.historyFetch = Except.error e)
    (hcomp : pRetryRun w.completionAttempt bot.options.openaiRetries = (Except.ok resp, calls))
    (htext : normalizeResponse (resp.content.getD "") ≠ "") :
    (bot.chatInner m ids w).assembled =
      some [ChatMsg.mk "system" bot.systemMessage, ChatMsg.mk "user" m] ∧
    histWarningMsg ∈ (bot.chatInner m ids w).warnings ∧
    ∃ text outIds, bot.chat m ids w = (text, outIds) ∧ text ≠ "" ∧
      jsTruthy outIds.messageId = true ∧ jsTruthy outIds.threadId = true := by
  have hinner := chatInner_not_early bot m ids w hm hc
  have hbody := chatBody_of_ok bot m ids w resp calls hcomp
  have htry : (jsTruthy ids.messageId && jsTruthy ids.threadId) = true := by
    rw [hmid, htid]; rfl
  have hassemble : assembleHistory (jsTruthy ids.messageId && jsTruthy ids.threadId)
      w.historyFetch = ([], [histWarningMsg]) := by
    rw [htry]
    exact assembleHistory_fail w.historyFetch e hhist
  refine ⟨?_, ?_, ?_⟩
  · rw [hinner, hbody]
    simp [hassemble]
  · rw [hinner, hbody]
    simp [hassemble]
  · refine ⟨normalizeResponse (resp.content.getD ""),
      Ids.mk (some (resp.role ++ "_" ++ toString w.nowMsg))
        (some (deriveThreadId ids.threadId w.nowThread)), ?_, htext, ?_, ?_⟩
    · apply chat_of_inner_ok
      rw [hinner, hbody]
    · rw [jsTruthy_some_iff]
      exact string_append_mid_ne_empty _ _ _ (by decide)
    · rw [jsTruthy_some_iff]
      exact deriveThreadId_ne_empty _ _

/-- Witness for C5 at a concrete failing history provider. -/
theorem history_failure_degrades_witness :
    (exBot.chatInner "hi" exIdsFull exWorldFailHist).assembled =
      some [ChatMsg.mk "system" exBot.systemMessage, ChatMsg.mk "user" "hi"] ∧
    histWarningMsg ∈ (exBot.chatInner "hi" exIdsFull exWorldFailHist).warnings ∧
    ∃ text outIds, exBot.chat "hi" exIdsFull exWorldFailHist = (text, outIds) ∧ text ≠ "" ∧
      jsTruthy outIds.messageId = true ∧ jsTruthy outIds.threadId = true :=
  history_failure_degrades exBot "hi" exIdsFull exWorldFailHist exResp "net down" 1
    (by decide) rfl (by decide) (by decide) rfl rfl (by decide)

/-- C6: the normalizer strips the fixed literal "with " exactly once when
and only when the content starts with it, and passes every other content
through unchanged; in particular "with hello" becomes "hello", "hi there"
is unchanged, and "with with hello" loses only one copy. -/
theorem normalizer_behaviour (s t : String) :
    normalizeResponse ("with " ++ s) = s ∧
    (jsStartsWith t "with " = false → normalizeResponse t = t) ∧
    normalizeResponse "with hello" = "hello" ∧
    normalizeResponse "hi there" = "hi there" ∧
    normalizeResponse "with with hello" = "with hello" :=
  ⟨normalizeResponse_of_append s, normalizeResponse_no_strip t, by decide, by decide, by decide⟩

/-- Witness for C6, discharging the no-strip hypothesis at "hi there". -/
theorem normalizer_behaviour_witness :
    normalizeResponse ("with " ++ "hello") = "hello" ∧
    normalizeResponse "hi there" = "hi there" :=
  ⟨(normalizer_behaviour "hello" "hi there").1,
   (normalizer_behaviour "hello" "hi there").2.1 (by decide)⟩

/-- C7: after every successful turn the returned identity has both fields
populated: messageId is the response role concatenated (through '_') with
a timestamp, and threadId is carried over from the incoming identity when
truthy and otherwise minted as thread_<timestamp>; it is nonempty either
way. -/
theorem successful_turn_ids (bot : Bot) (m : String) (ids : Ids) (w : World)
    (resp : RespMsg) (calls : Nat)
    (hm : m ≠ "") (hc : bot.hasClient = true)
    (hcomp : pRetryRun w.completionAttempt bot.options.openaiRetries = (Except.ok resp, calls)) :
    ∃ text, bot.chat m ids w =
        (text, Ids.mk (some (resp.role ++ "_" ++ toString w.nowMsg))
          (some (deriveThreadId ids.threadId w.nowThread))) ∧
      deriveThreadId ids.threadId w.nowThread ≠ "" ∧
      (resp.role ++ "_" ++ toString w.nowMsg) ≠ "" ∧
      (jsTruthy ids.threadId = true →
        some (deriveThreadId ids.threadId w.nowThread) = ids.threadId) ∧
      (jsTruthy ids.threadId = false →
        deriveThreadId ids.threadId w.nowThread = "thread_" ++ toString w.nowThread) := by
  have hinner := chatInner_not_early bot m ids w hm hc
  have hbody := chatBody_of_ok bot m ids w resp calls hcomp
  refine ⟨normalizeResponse (resp.content.getD ""), ?_, deriveThreadId_ne_empty _ _,
    string_append_mid_ne_empty _ _ _ (by decide), ?_, ?_⟩
  · apply chat_of_inner_ok
    rw [hinner, hbody]
  · intro h
    cases hts : ids.threadId with
    | some t =>
      have htne : t ≠ "" := by
        rw [hts] at h
        exact (jsTruthy_some_iff t).mp h
      rw [deriveThreadId_carried t w.nowThread htne]
    | none =>
      rw [hts] at h
      exact absurd h (by decide)
  · exact fun h => deriveThreadId_minted ids.threadId w.nowThread h

/-- Witness for C7: first turn of a conversation (threadId absent), so the
returned threadId is freshly minted and nonempty. -/
theorem successful_turn_ids_witness :
    ∃ text, exBot.chat "hi" emptyIds exWorldOk =
        (text, Ids.mk (some (exResp.role ++ "_" ++ toString exWorldOk.nowMsg))
          (some (deriveThreadId emptyIds.threadId exWorldOk.nowThread))) ∧
      deriveThreadId emptyIds.threadId exWorldOk.nowThread ≠ "" ∧
      (exResp.role ++ "_" ++ toString exWorldOk.nowMsg) ≠ "" ∧
      (jsTruthy emptyIds.threadId = true →
        some (deriveThreadId emptyIds.threadId exWorldOk.nowThread) = emptyIds.threadId) ∧
      (jsTruthy emptyIds.threadId = false →
        deriveThreadId emptyIds.threadId exWorldOk.nowThread =
          "thread_" ++ toString exWorldOk.nowThread) :=
  successful_turn_ids exBot "hi" emptyIds exWorldOk exResp 1 (by decide) rfl rfl

/-- C8: a missing API credential (or an empty one, which is equally falsy)
makes construction fail immediately with the initialization error; no Bot
value is produced, so this is a construction-time failure, not a per-call
failure of chat. -/
theorem missing_credential_fatal (opts : Options) (cutoff date : String) :
    Bot.make opts cutoff none date = Except.error initErrorMsg ∧
    Bot.make opts cutoff (some "") date = Except.error initErrorMsg :=
  ⟨rfl, rfl⟩

/-- C9: the system prompt is built exactly once at construction — any bot
the constructor returns carries exactly the template instantiated with
the base instruction, cutoff, construction date and language, in that
order — and every turn that reaches assembly reuses that very string
unchanged as the first (system) message. -/
theorem system_prompt_construction (opts : Options) (cutoff date : String)
    (apiKey : Option String) (bot : Bot) (m : String) (ids : Ids) (w : World)
    (hmk : Bot.make opts cutoff apiKey date = Except.ok bot) (hm : m ≠ "") :
    bot.systemMessage = mkSystemMessage opts.systemMessage cutoff date opts.language ∧
    (∃ s₁ s₂ s₃, bot.systemMessage =
      opts.systemMessage ++ s₁ ++ cutoff ++ s₂ ++ date ++ s₃ ++ opts.language ++ "\n") ∧
    ∃ tail, (bot.chatInner m ids w).assembled =
      some (ChatMsg.mk "system" bot.systemMessage :: tail) := by
  have hbot := make_ok_inversion opts cutoff date apiKey bot hmk
  subst hbot
  refine ⟨rfl, ⟨" \nKnowledge cutoff: ", "\nCurrent date: ",
    "\n\nIMPORTANT: Entire response must be in the language with ISO code: ", rfl⟩, ?_⟩
  refine ⟨ChatMsg.mk "user" m :: (assembleHistory (jsTruthy ids.messageId && jsTruthy ids.threadId)
    w.historyFetch).1, ?_⟩
  rw [chatInner_not_early _ m ids w hm rfl]
  rw [chatBody_assembled _ m ids w]

/-- Witness for C9 at a concrete construction. -/
theorem system_prompt_construction_witness :
    exBot.systemMessage =
      mkSystemMessage exOptions.systemMessage "2024-06" "2025-01-01" exOptions.language ∧
    ∃ tail, (exBot.chatInner "hi" emptyIds exWorldOk).assembled =
      some (ChatMsg.mk "system" exBot.systemMessage :: tail) :=
  ⟨(system_prompt_construction exOptions "2024-06" "2025-01-01" (some "sk-test") exBot
      "hi" emptyIds exWorldOk rfl (by decide)).1,
   (system_prompt_construction exOptions "2024-06" "2025-01-01" (some "sk-test") exBot
      "hi" emptyIds exWorldOk rfl (by decide)).2.2⟩

/-- C10: when the completion succeeds but the assistant message content is
null, chat does not fail: it returns the empty string together with a
fully populated identity, so empty text does not by itself mean the turn
failed. -/
theorem null_content_success (bot : Bot) (m : String) (ids : Ids) (w : World)
    (resp : RespMsg) (calls : Nat)
    (hm : m ≠ "") (hc : bot.hasClient = true)
    (hcomp : pRetryRun w.completionAttempt bot.options.openaiRetries = (Except.ok resp, calls))
    (hnull : resp.content = none) :
    ∃ outIds, bot.chat m ids w = ("", outIds) ∧
      jsTruthy outIds.messageId = true ∧ jsTruthy outIds.threadId = true ∧
      (bot.chatInner m ids w).result = Except.ok ("", outIds) := by
  have hinner := chatInner_not_early bot m ids w hm hc
  have hbody := chatBody_of_ok bot m ids w resp calls hcomp
  have htext : normalizeResponse (resp.content.getD "") = "" := by
    rw [hnull]
    rfl
  have hres : (bot.chatInner m ids w).result = Except.ok
      ("", Ids.mk (some (resp.role ++ "_" ++ toString w.nowMsg))
        (some (deriveThreadId ids.threadId w.nowThread))) := by
    rw [hinner, hbody]
    simp [htext]
  refine ⟨_, chat_of_inner_ok _ _ _ _ _ hres, ?_, ?_, hres⟩
  · rw [jsTruthy_some_iff]
    exact string_append_mid_ne_empty _ _ _ (by decide)
  · rw [jsTruthy_some_iff]
    exact deriveThreadId_ne_empty _ _

/-- Witness for C10 at a concrete null-content completion. -/
theorem null_content_success_witness :
    ∃ outIds, exBot.chat "hi" emptyIds exWorldNull = ("", outIds) ∧
      jsTruthy outIds.messageId = true ∧ jsTruthy outIds.threadId = true ∧
      (exBot.chatInner "hi" emptyIds exWorldNull).result = Except.ok ("", outIds) :=
  null_content_success exBot "hi" emptyIds exWorldNull exRespNull 1 (by decide) rfl rfl rfl

end AiPrReviewer
